import Mathlib

/-!
Shallow embedding of the intent lifecycle core of `rust-agent-core`:
the intent data model and generator (`src/intent/mod.rs`, `src/types.rs`),
the policy engine (`src/policy/mod.rs`), and the planner's context gate
(`src/planner/mod.rs`).

Modelling conventions:
- Rust `String`/`&str` values are Lean `String`s; `str::starts_with` is
  embedded as byte/char-list prefix (`List.isPrefixOf` on `String.data`),
  and `str::split('.')` as an explicit char-list splitter, so that every
  definition reduces in the kernel.
- `f32` confidence values are embedded as `ℚ`; every literal the code
  compares against (0.0, 0.5, 1.0) is exactly representable in `f32`,
  and `f32` ordering on such values agrees with rational ordering.
  Concrete rational constants are written with `mkRat` so that they
  reduce inside the kernel (`mkRat 1 2 = 1/2` and so on).
- `DateTime<Utc>` timestamps are embedded as `Int`; each operation that
  calls `Utc::now()` once takes the evaluation instant `now : Int` as an
  explicit argument (the source reads the clock exactly once per call).
- `Uuid` ids and `created_at` fields are freshly drawn from the
  environment by `Intent::new` and are never consulted by any operation
  studied here, so they are omitted from the `Intent` record; JSON
  parameter values are carried as their serialized text and never
  inspected.
- Rust `Result<T, AgentError>` is `Except AgentError T`; `HashMap<String, V>`
  is an association list with unique keys, which `grant_permission`
  maintains by updating in place.
-/

/-- Embedding of Rust `str::starts_with`: `starts_with s pre` is
`s.starts_with(pre)`, i.e. `pre` is a prefix of `s` (char-for-char,
which for valid UTF-8 coincides with byte-for-byte). -/
def starts_with (s pre : String) : Bool :=
  pre.data.isPrefixOf s.data

/-- Embedding of Rust `str::split(c)` on the char list of a string:
`splitChar c l` yields the (always nonempty) list of separator-free
chunks, e.g. `splitChar '.' "a.b".data = ["a".data, "b".data]` and
`splitChar '.' "".data = [[]]`, exactly as Rust's `split` iterator. -/
def splitChar (c : Char) : List Char → List (List Char)
  | [] => [[]]
  | x :: xs =>
    if x = c then [] :: splitChar c xs
    else
      match splitChar c xs with
      | [] => [[x]]
      | y :: ys => (x :: y) :: ys

/-- Error type from `src/error.rs` (the two kinds the intent lifecycle
uses; messages are carried verbatim). -/
inductive AgentError where
  | InvalidIntent (msg : String)
  | PolicyViolation (msg : String)
  deriving DecidableEq, Inhabited

/-- `Intent` from `src/types.rs`. `id` and `created_at` (environment
supplied, never read by the operations under study) are omitted;
parameter values are opaque serialized text. -/
structure Intent where
  intent_type : String
  confidence : ℚ
  parameters : List (String × String)
  reasoning : String
  requires_permission : Bool
  target_module : Option String
  deriving DecidableEq, Inhabited

/-- `Intent::new`: all caller fields set, `requires_permission := false`,
`target_module := none`. -/
def Intent.new (intent_type : String) (confidence : ℚ)
    (parameters : List (String × String)) (reasoning : String) : Intent :=
  { intent_type, confidence, parameters, reasoning,
    requires_permission := false, target_module := none }

/-- `Permission` from `src/policy/mod.rs`. -/
structure Permission where
  module : String
  actions : List String
  scope : List String
  granted_at : Int
  expires_at : Option Int
  deriving DecidableEq, Inhabited

/-- `PolicyEngine` from `src/policy/mod.rs`: the grant table
(`HashMap<String, Vec<Permission>>`, keys unique) and the module
allow-list. -/
structure PolicyEngine where
  permissions : List (String × List Permission)
  allowed_modules : List String
  deriving DecidableEq, Inhabited

/-- `PolicyEngine::new`. -/
def PolicyEngine.new (allowed_modules : List String) : PolicyEngine :=
  { permissions := [], allowed_modules }

/-- `HashMap::get` on the grant table. -/
def PolicyEngine.getPerms (e : PolicyEngine) (module : String) :
    Option (List Permission) :=
  (e.permissions.find? (fun kv => kv.1 == module)).map (·.2)

/-- `PolicyEngine::grant_permission`: `entry(module).or_insert(vec).push(p)` —
append to the module's list, creating the entry if absent. -/
def PolicyEngine.grant_permission (e : PolicyEngine) (p : Permission) :
    PolicyEngine :=
  if e.permissions.any (fun kv => kv.1 == p.module) then
    { e with permissions :=
        e.permissions.map (fun kv =>
          if kv.1 == p.module then (kv.1, kv.2 ++ [p]) else kv) }
  else
    { e with permissions := e.permissions ++ [(p.module, [p])] }

/-- The grant-scan test shared by `check_intent` (lines 65–79) and
`is_action_permitted` (lines 135–145): a permission authorizes the
string `t` when it is not expired (`expires_at` absent, or not
`expires < now`) and some action `a` satisfies
`a == t || t.starts_with(a ++ ".")`. The source writes the scan as a
loop with `continue`; skipping an expired grant and conjoining are the
same test. -/
def Permission.grants (p : Permission) (now : Int) (t : String) : Bool :=
  (match p.expires_at with
   | some expires => !(expires < now : Bool)
   | none => true) &&
  p.actions.any (fun a => a == t || starts_with t (a ++ "."))

/-- `PolicyEngine::check_intent`, with the single `Utc::now()` read
passed as `now`. -/
def PolicyEngine.check_intent (e : PolicyEngine) (now : Int)
    (intent : Intent) : Except AgentError Unit :=
  if !intent.requires_permission then
    .ok ()
  else
    match intent.target_module with
    | some module =>
      if !e.allowed_modules.isEmpty && !e.allowed_modules.contains module then
        .error (.PolicyViolation
          ("Module " ++ module ++ " is not in allowed modules list"))
      else if (match e.getPerms module with
               | some perms => perms.any (fun p => p.grants now intent.intent_type)
               | none => false) then
        .ok ()
      else
        .error (.PolicyViolation
          ("No valid permission found for intent type " ++ intent.intent_type))
    | none =>
      .error (.PolicyViolation
        "Intent requires permission but has no target module")

/-- `PolicyEngine::is_action_permitted`, with the `Utc::now()` read
passed as `now`. -/
def PolicyEngine.is_action_permitted (e : PolicyEngine)
    (module action : String) (now : Int) : Bool :=
  match e.getPerms module with
  | some perms => perms.any (fun p => p.grants now action)
  | none => false

/-- `PolicyEngine::clear_expired`: per module, retain the grants with
`expires_at.map(|exp| exp > now).unwrap_or(true)`, summing the number
dropped; then drop modules whose list became empty. Returns the new
engine and the count. -/
def PolicyEngine.clear_expired (e : PolicyEngine) (now : Int) :
    PolicyEngine × Nat :=
  let keep : Permission → Bool := fun p =>
    (p.expires_at.map (fun exp => (now < exp : Bool))).getD true
  let cleared :=
    (e.permissions.map (fun kv => kv.2.length - (kv.2.filter keep).length)).sum
  let pruned := e.permissions.map (fun kv => (kv.1, kv.2.filter keep))
  ({ e with permissions := pruned.filter (fun kv => !kv.2.isEmpty) }, cleared)

/-- Derived predicate: the grant's `expires_at` is present and at or
before `now` — exactly the grants `clear_expired` removes. -/
def Permission.expiredBy (p : Permission) (now : Int) : Bool :=
  match p.expires_at with
  | some x => decide (x ≤ now)
  | none => false

/-- `IntentGenerator` from `src/intent/mod.rs`. -/
structure IntentGenerator where
  min_confidence : ℚ
  deriving DecidableEq, Inhabited

/-- `IntentGenerator::new`: `min_confidence = 0.5`. -/
def IntentGenerator.new : IntentGenerator :=
  { min_confidence := mkRat 1 2 }

/-- `IntentGenerator::requires_permission` (`src/intent/mod.rs`
lines 59–77): true iff the intent type starts with one of the ten
sensitive namespace strings. -/
def IntentGenerator.requires_permission (_g : IntentGenerator)
    (intent_type : String) : Bool :=
  let requires_permission_prefixes : List String :=
    ["device.", "message.", "email.", "calendar.", "file.", "network.",
     "location.", "camera.", "microphone.", "notification."]
  requires_permission_prefixes.any (fun pre => starts_with intent_type pre)

/-- `IntentGenerator::generate` (`src/intent/mod.rs` lines 25–50):
confidence gate, then `Intent::new`, then the permission classifier,
then `intent_type.split('.').next()` into `target_module`. -/
def IntentGenerator.generate (g : IntentGenerator) (intent_type : String)
    (confidence : ℚ) (parameters : List (String × String))
    (reasoning : String) : Except AgentError Intent :=
  if confidence < g.min_confidence then
    .error (.InvalidIntent
      ("Confidence " ++ toString confidence ++ " below minimum " ++
        toString g.min_confidence))
  else
    let intent := Intent.new intent_type confidence parameters reasoning
    let intent := { intent with
      requires_permission := g.requires_permission intent_type }
    match (splitChar '.' intent_type.data).head? with
    | some module => .ok { intent with target_module := some (String.mk module) }
    | none => .ok intent

/-- `IntentGenerator::validate` (`src/intent/mod.rs` lines 80–100).
Rust `String::is_empty` is emptiness of the char list. -/
def IntentGenerator.validate (_g : IntentGenerator) (intent : Intent) :
    Except AgentError Unit :=
  if intent.confidence < 0 || intent.confidence > 1 then
    .error (.InvalidIntent "Confidence must be between 0.0 and 1.0")
  else if intent.intent_type.data.isEmpty then
    .error (.InvalidIntent "Intent type cannot be empty")
  else if intent.reasoning.data.isEmpty then
    .error (.InvalidIntent "Reasoning cannot be empty")
  else
    .ok ()

/-- `Context` from `src/types.rs`; `recent_events` and `active_habits`
are never consulted by `evaluate_intent` and are omitted. -/
structure Context where
  user_id : String
  current_location : Option String
  current_activity : Option String
  timestamp : Int
  deriving DecidableEq, Inhabited

/-- `Planner` from `src/planner/mod.rs` (its fields are not read by
`evaluate_intent`). -/
structure Planner where
  deriving DecidableEq, Inhabited

/-- `Planner::evaluate_intent` (`src/planner/mod.rs` lines 149–163):
sleeping veto on `device.` intents, then the confidence floor, then
approval, first match winning. -/
def Planner.evaluate_intent (_p : Planner) (intent : Intent)
    (context : Context) : Bool × String :=
  if (match context.current_activity with
      | some activity =>
        activity == "sleeping" && starts_with intent.intent_type "device."
      | none => false) then
    (false, "User appears to be sleeping, device control may not be appropriate")
  else if intent.confidence < mkRat 1 2 then
    (false, "Low confidence: " ++ toString intent.confidence)
  else
    (true, "Intent appears appropriate for current context")

example : starts_with "device.control" "device." = true := by decide
example : starts_with "device.control" "dev." = false := by decide
example : splitChar '.' "device.control".data =
    ["device".data, "control".data] := by decide
example : splitChar '.' "weather".data = ["weather".data] := by decide
example : (IntentGenerator.generate IntentGenerator.new "weather" (mkRat 9 10)
    [] "r").isOk = true := by decide

/-! ### Helper lemmas -/

theorem splitChar_ne_nil (c : Char) (l : List Char) : splitChar c l ≠ [] := by
  cases l with
  | nil => simp [splitChar]
  | cons x xs =>
    simp only [splitChar]
    split
    · simp
    · split <;> simp

theorem splitChar_headD_eq_takeWhile (c : Char) (l : List Char) :
    (splitChar c l).headD [] = l.takeWhile (fun a => !(a == c)) := by
  induction l with
  | nil => rfl
  | cons x xs ih =>
    by_cases hx : x = c
    · simp [splitChar, hx, List.takeWhile_cons]
    · cases hsp : splitChar c xs with
      | nil => exact absurd hsp (splitChar_ne_nil c xs)
      | cons y ys =>
        rw [hsp] at ih
        simp only [splitChar, if_neg hx, hsp, List.headD_cons,
          List.takeWhile_cons]
        simp [hx, ← ih]

/-- Inversion of a successful `generate`: every field of the produced
intent, plus the fact that the confidence gate was passed. -/
theorem generate_ok_fields (g : IntentGenerator) (ty : String) (c : ℚ)
    (ps : List (String × String)) (r : String) (i : Intent)
    (h : g.generate ty c ps r = .ok i) :
    i.intent_type = ty ∧ i.confidence = c ∧ i.parameters = ps ∧
    i.reasoning = r ∧ i.requires_permission = g.requires_permission ty ∧
    i.target_module = some (String.mk ((splitChar '.' ty.data).headD [])) ∧
    ¬ c < g.min_confidence := by
  unfold IntentGenerator.generate at h
  split at h
  · exact absurd h (by simp)
  · rename_i hge
    cases hsp : splitChar '.' ty.data with
    | nil => exact absurd hsp (splitChar_ne_nil '.' ty.data)
    | cons y ys =>
      rw [hsp] at h
      simp only [List.head?_cons, Except.ok.injEq] at h
      subst h
      simp [Intent.new, hsp, hge]

/-- The retain predicate of `clear_expired` is the negation of
"expires at or before `now`". -/
theorem clear_expired_keep_eq (now : Int) (p : Permission) :
    ((p.expires_at.map (fun exp => (now < exp : Bool))).getD true)
      = !(p.expiredBy now) := by
  unfold Permission.expiredBy
  cases hx : p.expires_at with
  | none => rfl
  | some x =>
    simp only [Option.map_some', Option.getD_some, ← decide_not]
    exact decide_eq_decide.mpr Int.not_le.symm

/-! ### Claims -/

/-- Claim C7: an intent with `requires_permission = false` passes
`check_intent` immediately, whatever the engine's allow-list and grant
table are. -/
theorem check_intent_zero_permission (e : PolicyEngine) (now : Int)
    (i : Intent) (h : i.requires_permission = false) :
    e.check_intent now i = .ok () := by
  unfold PolicyEngine.check_intent
  rw [h]
  rfl

/-- Claim C7 witness: intent `weather.query`, empty allow-list, no
grants. -/
theorem check_intent_zero_permission_witness :
    (PolicyEngine.new []).check_intent 0
      (Intent.new "weather.query" (mkRat 9 10) [] "User asking about weather")
      = .ok () :=
  check_intent_zero_permission (PolicyEngine.new []) 0
    (Intent.new "weather.query" (mkRat 9 10) [] "User asking about weather")
    (by decide)

/-- Claim C6: a successfully generated intent has
`requires_permission = true` exactly when its type starts with one of
the ten sensitive namespace strings. -/
theorem generate_requires_permission_iff (g : IntentGenerator) (ty : String)
    (c : ℚ) (ps : List (String × String)) (r : String) (i : Intent)
    (h : g.generate ty c ps r = .ok i) :
    i.requires_permission = true ↔
      (starts_with ty "device." = true ∨ starts_with ty "message." = true ∨
       starts_with ty "email." = true ∨ starts_with ty "calendar." = true ∨
       starts_with ty "file." = true ∨ starts_with ty "network." = true ∨
       starts_with ty "location." = true ∨ starts_with ty "camera." = true ∨
       starts_with ty "microphone." = true ∨
       starts_with ty "notification." = true) := by
  have hf := (generate_ok_fields g ty c ps r i h).2.2.2.2.1
  rw [hf]
  simp [IntentGenerator.requires_permission, List.any, Bool.or_eq_true,
    or_assoc]

/-- Claim C6 witness: `device.control` requires permission;
the theorem instantiated at a concretely generated intent. -/
theorem generate_requires_permission_iff_witness :
    (Intent.mk "device.control" 1 [] "r" true (some "device")).requires_permission
      = true :=
  (generate_requires_permission_iff IntentGenerator.new "device.control" 1 []
    "r" (Intent.mk "device.control" 1 [] "r" true (some "device"))
    rfl).mpr (Or.inl (by decide))

/-- Claim C1: with a single unexpired grant carrying the one action
string `a`, `is_action_permitted` and `check_intent` authorize an
intent type `t` exactly when `a == t` or `t` starts with `a ++ "."`;
and the concrete ancestor-matching cases: a `"device"` grant covers
`"device.control"` and `"device.control.dim"` but not
`"devicecontrol"`, a `"device.control"` grant covers itself and
`"device.control.dim"` but not `"device"`, and the bare substring
`"dev"` never covers `"device.control"`. -/
theorem ancestor_matching (m a t : String) (exp : Option Int) (now : Int)
    (conf : ℚ) (ps : List (String × String)) (r : String)
    (hunexp : ∀ x, exp = some x → ¬ x < now) :
    (PolicyEngine.is_action_permitted
        ⟨[(m, [⟨m, [a], [], 0, exp⟩])], []⟩ m t now
      = (a == t || starts_with t (a ++ "."))) ∧
    (PolicyEngine.check_intent ⟨[(m, [⟨m, [a], [], 0, exp⟩])], []⟩ now
        ⟨t, conf, ps, r, true, some m⟩ = .ok ()
      ↔ (a == t || starts_with t (a ++ ".")) = true) ∧
    (PolicyEngine.is_action_permitted
        ((PolicyEngine.new []).grant_permission ⟨"device", ["device"], [], 0, none⟩)
        "device" "device.control" 0 = true) ∧
    (PolicyEngine.is_action_permitted
        ((PolicyEngine.new []).grant_permission ⟨"device", ["device"], [], 0, none⟩)
        "device" "device.control.dim" 0 = true) ∧
    (PolicyEngine.is_action_permitted
        ((PolicyEngine.new []).grant_permission ⟨"device", ["device"], [], 0, none⟩)
        "device" "devicecontrol" 0 = false) ∧
    (PolicyEngine.is_action_permitted
        ((PolicyEngine.new []).grant_permission
          ⟨"device", ["device.control"], [], 0, none⟩)
        "device" "device.control" 0 = true) ∧
    (PolicyEngine.is_action_permitted
        ((PolicyEngine.new []).grant_permission
          ⟨"device", ["device.control"], [], 0, none⟩)
        "device" "device.control.dim" 0 = true) ∧
    (PolicyEngine.is_action_permitted
        ((PolicyEngine.new []).grant_permission
          ⟨"device", ["device.control"], [], 0, none⟩)
        "device" "device" 0 = false) ∧
    (PolicyEngine.is_action_permitted
        ((PolicyEngine.new []).grant_permission ⟨"device", ["dev"], [], 0, none⟩)
        "device" "device.control" 0 = false) := by
  have hgr : Permission.grants ⟨m, [a], [], 0, exp⟩ now t
      = (a == t || starts_with t (a ++ ".")) := by
    unfold Permission.grants
    cases hx : exp with
    | none => simp
    | some x =>
      have := hunexp x hx
      simp [this]
  refine ⟨?_, ?_, by decide, by decide, by decide, by decide, by decide,
    by decide, by decide⟩
  · simp [PolicyEngine.is_action_permitted, PolicyEngine.getPerms,
      List.find?, hgr]
  · simp only [PolicyEngine.check_intent, PolicyEngine.getPerms,
      Bool.not_true, Bool.false_eq_true, if_false]
    simp only [List.find?, beq_self_eq_true, Option.map_some', List.any_cons,
      List.any_nil, Bool.or_false, hgr, List.isEmpty_nil, Bool.not_true,
      Bool.false_and, Bool.false_eq_true, if_false]
    cases hm : (a == t || starts_with t (a ++ ".")) <;> simp

/-- Claim C1 witness: the generic part applied at the grant `"device"`,
intent type `"device.control"`, no expiry. -/
theorem ancestor_matching_witness :
    PolicyEngine.is_action_permitted
        ⟨[("device", [⟨"device", ["device"], [], 0, none⟩])], []⟩
        "device" "device.control" 0
      = (("device" == "device.control")
          || starts_with "device.control" ("device" ++ ".")) :=
  (ancestor_matching "device" "device" "device.control" none 0 1 [] "r"
    (fun x hx => absurd hx (by simp))).1

/-- Claim C3 counterexample: `generate` on the dot-free type
`"weather"` succeeds with `target_module = some "weather"` — the field
is never left unset, contrary to the claim (Rust's
`split('.').next()` is `Some` even without a separator). -/
theorem generate_no_dot_target_some :
    IntentGenerator.generate IntentGenerator.new "weather" (mkRat 9 10) [] "r"
      = .ok ⟨"weather", mkRat 9 10, [], "r", false, some "weather"⟩ ∧
    some "weather" ≠ (none : Option String) := ⟨rfl, by simp⟩

/-- Claim C3 amended: a generated intent's `target_module` always holds
the substring of `intent_type` before the first `.`; when no `.` is
present that is the whole of `intent_type` (wrapped in `some`), never
`none`. -/
theorem generate_target_module (g : IntentGenerator) (ty : String) (c : ℚ)
    (ps : List (String × String)) (r : String) (i : Intent)
    (h : g.generate ty c ps r = .ok i) :
    i.target_module
      = some (String.mk (ty.data.takeWhile (fun ch => !(ch == '.')))) ∧
    ('.' ∉ ty.data → i.target_module = some ty) := by
  have hf := (generate_ok_fields g ty c ps r i h).2.2.2.2.2.1
  rw [splitChar_headD_eq_takeWhile] at hf
  refine ⟨hf, fun hdot => ?_⟩
  rw [hf]
  have : ty.data.takeWhile (fun ch => !(ch == '.')) = ty.data :=
    List.takeWhile_eq_self_iff.mpr (fun x hx => by
      simp only [Bool.not_eq_true']
      exact beq_eq_false_iff_ne.mpr (fun hc => hdot (hc ▸ hx)))
  rw [this]

/-- Claim C3 amended witness: generating `"device.control"` targets
module `"device"`; generating dot-free `"weather"` targets
`some "weather"`. -/
theorem generate_target_module_witness :
    (Intent.mk "device.control" 1 [] "r" true (some "device")).target_module
        = some (String.mk
            ("device.control".data.takeWhile (fun ch => !(ch == '.')))) ∧
    (Intent.mk "weather" 1 [] "r" false (some "weather")).target_module
        = some "weather" :=
  ⟨(generate_target_module IntentGenerator.new "device.control" 1 [] "r"
      (Intent.mk "device.control" 1 [] "r" true (some "device")) rfl).1,
   (generate_target_module IntentGenerator.new "weather" 1 [] "r"
      (Intent.mk "weather" 1 [] "r" false (some "weather")) rfl).2
      (by decide)⟩

/-- Claim C8: with the default generator (`min_confidence = 0.5`),
`generate` fails with `InvalidIntent` for confidence below one half,
succeeds for confidence in `[1/2, 1]`, and succeeds at the boundary
value one half itself. -/
theorem generate_confidence_gate (ty : String) (ps : List (String × String))
    (r : String) (c : ℚ) :
    (c < mkRat 1 2 →
      IntentGenerator.generate IntentGenerator.new ty c ps r
        = .error (.InvalidIntent ("Confidence " ++ toString c
            ++ " below minimum " ++ toString (mkRat 1 2)))) ∧
    (mkRat 1 2 ≤ c → c ≤ 1 →
      ∃ i, IntentGenerator.generate IntentGenerator.new ty c ps r = .ok i) ∧
    (∃ i, IntentGenerator.generate IntentGenerator.new ty (mkRat 1 2) ps r
        = .ok i) := by
  have hsucc : ∀ c' : ℚ, ¬ c' < mkRat 1 2 →
      ∃ i, IntentGenerator.generate IntentGenerator.new ty c' ps r = .ok i := by
    intro c' hc'
    unfold IntentGenerator.generate
    rw [if_neg (by exact hc')]
    cases hsp : splitChar '.' ty.data with
    | nil => exact absurd hsp (splitChar_ne_nil '.' ty.data)
    | cons y ys => exact ⟨_, rfl⟩
  refine ⟨fun hc => ?_, fun h1 _h2 => hsucc c (not_lt.mpr h1),
    hsucc (mkRat 1 2) (lt_irrefl _)⟩
  unfold IntentGenerator.generate
  rw [if_pos (by exact hc)]
  rfl

/-- Claim C8 witness: confidence 0.25 is rejected with `InvalidIntent`,
0.75 and the boundary 0.5 are accepted. -/
theorem generate_confidence_gate_witness :
    (IntentGenerator.generate IntentGenerator.new "weather.query" (mkRat 1 4)
        [] "r"
      = .error (.InvalidIntent ("Confidence " ++ toString (mkRat 1 4)
          ++ " below minimum " ++ toString (mkRat 1 2)))) ∧
    (∃ i, IntentGenerator.generate IntentGenerator.new "weather.query"
        (mkRat 3 4) [] "r" = .ok i) ∧
    (∃ i, IntentGenerator.generate IntentGenerator.new "weather.query"
        (mkRat 1 2) [] "r" = .ok i) :=
  ⟨(generate_confidence_gate "weather.query" [] "r" (mkRat 1 4)).1 (by decide),
   (generate_confidence_gate "weather.query" [] "r" (mkRat 3 4)).2.1
     (by decide) (by decide),
   (generate_confidence_gate "weather.query" [] "r" (mkRat 1 2)).2.2⟩

/-- Claim C2 counterexample: a grant whose `expires_at` equals the
evaluation instant — so is neither absent nor in the future — still
authorizes: the source only skips a grant when `expires < now`,
honouring expiry times equal to `now`. The engine holds exactly that
one grant and the intent requires permission, so the success is on its
account. -/
theorem expiry_boundary_authorizes :
    ((PolicyEngine.new []).grant_permission
        ⟨"device", ["device.control"], [], -10, some 0⟩).check_intent 0
        ⟨"device.control", mkRat 4 5, [], "r", true, some "device"⟩
      = .ok () ∧
    ((PolicyEngine.new []).grant_permission
        ⟨"device", ["device.control"], [], -10, some 0⟩).is_action_permitted
        "device" "device.control" 0 = true ∧
    ((PolicyEngine.new []).grant_permission
        ⟨"device", ["device.control"], [], -10, some 0⟩).permissions
      = [("device", [⟨"device", ["device.control"], [], -10, some 0⟩])] ∧
    ¬ ((0 : Int) < 0) := ⟨rfl, rfl, rfl, by decide⟩

/-- Claim C2 amended: `check_intent` and `is_action_permitted` succeed
on account of a grant only if its `expires_at` is absent or not
earlier than the evaluation instant (`now ≤ expires_at`); in
particular a grant with `expires_at` strictly in the past never
authorizes. Stated as an inversion: any success exhibits a grant of
the target module that is not strictly expired and whose actions
match. -/
theorem policy_success_needs_unexpired_grant :
    (∀ (e : PolicyEngine) (now : Int) (i : Intent),
      i.requires_permission = true → e.check_intent now i = .ok () →
      ∃ m perms p, i.target_module = some m ∧ e.getPerms m = some perms ∧
        p ∈ perms ∧
        (p.expires_at = none ∨ ∃ x, p.expires_at = some x ∧ now ≤ x) ∧
        p.actions.any (fun a => a == i.intent_type
          || starts_with i.intent_type (a ++ ".")) = true) ∧
    (∀ (e : PolicyEngine) (now : Int) (m act : String),
      e.is_action_permitted m act now = true →
      ∃ perms p, e.getPerms m = some perms ∧ p ∈ perms ∧
        (p.expires_at = none ∨ ∃ x, p.expires_at = some x ∧ now ≤ x) ∧
        p.actions.any (fun a => a == act
          || starts_with act (a ++ ".")) = true) := by
  have hgrant : ∀ (p : Permission) (now : Int) (t : String),
      p.grants now t = true →
      (p.expires_at = none ∨ ∃ x, p.expires_at = some x ∧ now ≤ x) ∧
      p.actions.any (fun a => a == t || starts_with t (a ++ ".")) = true := by
    intro p now t hp
    unfold Permission.grants at hp
    rw [Bool.and_eq_true] at hp
    refine ⟨?_, hp.2⟩
    cases hx : p.expires_at with
    | none => exact Or.inl rfl
    | some x =>
      rw [hx] at hp
      have := hp.1
      simp only [Bool.not_eq_true', decide_eq_false_iff_not, Int.not_lt] at this
      exact Or.inr ⟨x, rfl, this⟩
  have hscan : ∀ (e : PolicyEngine) (now : Int) (m t : String),
      (match e.getPerms m with
       | some perms => perms.any (fun p => p.grants now t)
       | none => false) = true →
      ∃ perms p, e.getPerms m = some perms ∧ p ∈ perms ∧
        (p.expires_at = none ∨ ∃ x, p.expires_at = some x ∧ now ≤ x) ∧
        p.actions.any (fun a => a == t || starts_with t (a ++ ".")) = true := by
    intro e now m t h
    cases hg : e.getPerms m with
    | none => rw [hg] at h; exact absurd h (by simp)
    | some perms =>
      rw [hg] at h
      obtain ⟨p, hmem, hp⟩ := List.any_eq_true.mp h
      exact ⟨perms, p, rfl, hmem, hgrant p now t hp⟩
  constructor
  · intro e now i hreq hok
    unfold PolicyEngine.check_intent at hok
    rw [hreq] at hok
    simp only [Bool.not_true, Bool.false_eq_true, if_false] at hok
    cases hm : i.target_module with
    | none => rw [hm] at hok; simp at hok
    | some m =>
      rw [hm] at hok
      split at hok
      · rename_i module heq
        injection heq with heqm
        subst heqm
        split at hok
        · simp at hok
        · split at hok
          · rename_i hcond
            obtain ⟨perms, p, h1, h2, h3⟩ := hscan e now m i.intent_type hcond
            exact ⟨m, perms, p, rfl, h1, h2, h3⟩
          · simp at hok
      · rename_i heq
        exact Option.noConfusion heq
  · intro e now m act h
    unfold PolicyEngine.is_action_permitted at h
    exact hscan e now m act h

/-- Claim C2 amended witness: the inversion applied to the successful
check of a `device.control` intent against a grant expiring strictly
in the future. -/
theorem policy_success_needs_unexpired_grant_witness :
    ∃ m perms p,
      (Intent.mk "device.control" 1 [] "r" true (some "device")).target_module
        = some m ∧
      (PolicyEngine.mk [("device", [⟨"device", ["device.control"], [], 0,
          some 10⟩])] ["device"]).getPerms m = some perms ∧
      p ∈ perms ∧
      (p.expires_at = none ∨ ∃ x, p.expires_at = some x ∧ (0 : Int) ≤ x) ∧
      p.actions.any (fun a =>
        a == (Intent.mk "device.control" 1 [] "r" true
            (some "device")).intent_type
        || starts_with (Intent.mk "device.control" 1 [] "r" true
            (some "device")).intent_type (a ++ ".")) = true :=
  policy_success_needs_unexpired_grant.1
    (PolicyEngine.mk [("device", [⟨"device", ["device.control"], [], 0,
      some 10⟩])] ["device"]) 0
    (Intent.mk "device.control" 1 [] "r" true (some "device")) rfl rfl

/-- Claim C4 counterexample: `generate` succeeds on inputs whose result
fails `validate` — empty reasoning, empty intent type, and confidence
above 1 all pass the generation gate (which only checks
`confidence < 0.5`). -/
theorem generate_not_validated :
    (IntentGenerator.generate IntentGenerator.new "test.action" (mkRat 4 5)
        [] "" = .ok ⟨"test.action", mkRat 4 5, [], "", false, some "test"⟩ ∧
      IntentGenerator.validate IntentGenerator.new
        ⟨"test.action", mkRat 4 5, [], "", false, some "test"⟩
        = .error (.InvalidIntent "Reasoning cannot be empty")) ∧
    (IntentGenerator.generate IntentGenerator.new "" (mkRat 4 5) [] "r"
        = .ok ⟨"", mkRat 4 5, [], "r", false, some ""⟩ ∧
      IntentGenerator.validate IntentGenerator.new
        ⟨"", mkRat 4 5, [], "r", false, some ""⟩
        = .error (.InvalidIntent "Intent type cannot be empty")) ∧
    (IntentGenerator.generate IntentGenerator.new "test.action" (mkRat 3 2)
        [] "r" = .ok ⟨"test.action", mkRat 3 2, [], "r", false, some "test"⟩ ∧
      IntentGenerator.validate IntentGenerator.new
        ⟨"test.action", mkRat 3 2, [], "r", false, some "test"⟩
        = .error (.InvalidIntent "Confidence must be between 0.0 and 1.0")) :=
  ⟨⟨rfl, rfl⟩, ⟨rfl, rfl⟩, ⟨rfl, rfl⟩⟩

/-- Claim C4 amended: when the inputs respect the data-model bounds the
generation gate does not itself enforce — confidence at most 1,
non-empty intent type, non-empty reasoning — every intent returned by
the default generator passes `validate` (the lower confidence bound
follows from the 0.5 gate). -/
theorem generate_ok_validates (ty : String) (c : ℚ)
    (ps : List (String × String)) (r : String) (i : Intent)
    (hc : c ≤ 1) (hty : ty.data ≠ []) (hr : r.data ≠ [])
    (h : IntentGenerator.generate IntentGenerator.new ty c ps r = .ok i) :
    IntentGenerator.validate IntentGenerator.new i = .ok () := by
  obtain ⟨h1, h2, _h3, h4, _h5, _h6, h7⟩ :=
    generate_ok_fields IntentGenerator.new ty c ps r i h
  have hhalf : (0 : ℚ) ≤ mkRat 1 2 := by norm_num
  have hc0 : ¬ i.confidence < 0 := by
    rw [h2]
    exact not_lt.mpr (le_trans hhalf (not_lt.mp h7))
  have hc1 : ¬ i.confidence > 1 := by rw [h2]; exact not_lt.mpr hc
  unfold IntentGenerator.validate
  rw [if_neg (by simp [hc0, hc1]), if_neg (by simp [h1, hty]),
    if_neg (by simp [h4, hr])]

/-- Claim C4 amended witness: a well-formed generation
(`device.control`, confidence 0.8, non-empty reasoning) validates. -/
theorem generate_ok_validates_witness :
    IntentGenerator.validate IntentGenerator.new
      (Intent.mk "device.control" (mkRat 4 5) [] "r" true (some "device"))
      = .ok () :=
  generate_ok_validates "device.control" (mkRat 4 5) [] "r"
    (Intent.mk "device.control" (mkRat 4 5) [] "r" true (some "device"))
    (by decide) (by decide) (by decide) rfl

theorem length_sub_length_filter_not {α : Type} (q : α → Bool) (l : List α) :
    l.length - (l.filter (fun a => !(q a))).length = l.countP q := by
  induction l with
  | nil => rfl
  | cons x xs ih =>
    have hle := List.length_filter_le (fun a => !(q a)) xs
    cases hq : q x with
    | true =>
      simp only [List.filter_cons, hq, Bool.not_true, Bool.false_eq_true,
        if_false, List.length_cons]
      rw [List.countP_cons_of_pos _ _ (by simp [hq])]
      omega
    | false =>
      simp only [List.filter_cons, hq, Bool.not_false, if_true,
        List.length_cons]
      rw [List.countP_cons_of_neg _ _ (by simp [hq])]
      omega

/-- Claim C5 counterexample: a grant expiring exactly at the evaluation
instant is removed (count 1), although no grant's `expires_at` is
strictly before that instant — `clear_expired` retains only
`expires_at > now`, so it also removes grants expiring at `now`. -/
theorem clear_expired_boundary :
    (((PolicyEngine.new []).grant_permission
        ⟨"device", ["device.control"], [], -10, some 0⟩).clear_expired 0).2
      = 1 ∧
    ((((PolicyEngine.new []).grant_permission
        ⟨"device", ["device.control"], [], -10, some 0⟩).permissions.map
          (fun kv => kv.2.countP (fun p =>
            match p.expires_at with
            | some x => decide (x < (0 : Int))
            | none => false))).sum) = 0 := ⟨rfl, rfl⟩

/-- Claim C5 amended: `clear_expired` removes exactly the grants whose
`expires_at` is present and at or before (`≤`) the evaluation instant,
returning that count; every surviving module list is non-empty and
contains only grants not so expired; and the call is idempotent: a
second call at the same instant removes zero grants. -/
theorem clear_expired_spec (e : PolicyEngine) (now : Int) :
    (e.clear_expired now).2
        = (e.permissions.map
            (fun kv => kv.2.countP (fun p => p.expiredBy now))).sum ∧
    (∀ m ps, (m, ps) ∈ (e.clear_expired now).1.permissions →
        ps ≠ [] ∧ ∀ p ∈ ps, p.expiredBy now = false) ∧
    ((e.clear_expired now).1.clear_expired now).2 = 0 ∧
    (e.clear_expired now).1.allowed_modules = e.allowed_modules := by
  have hkeep : (fun p : Permission =>
      (p.expires_at.map (fun exp => (now < exp : Bool))).getD true)
        = fun p => !(p.expiredBy now) := funext (clear_expired_keep_eq now)
  have hcount : ∀ (l : List Permission),
      l.length - (l.filter (fun p =>
        (p.expires_at.map (fun exp => (now < exp : Bool))).getD true)).length
        = l.countP (fun p => p.expiredBy now) := by
    intro l
    rw [hkeep]
    exact length_sub_length_filter_not _ l
  have hmem_inv : ∀ m ps, (m, ps) ∈ (e.clear_expired now).1.permissions →
      ps ≠ [] ∧ ∀ p ∈ ps, p.expiredBy now = false := by
    intro m ps hmem
    simp only [PolicyEngine.clear_expired] at hmem
    rw [List.mem_filter] at hmem
    obtain ⟨hmem', hne⟩ := hmem
    rw [List.mem_map] at hmem'
    obtain ⟨kv, _hkv, heq⟩ := hmem'
    have hps : kv.2.filter (fun p =>
        (p.expires_at.map (fun exp => (now < exp : Bool))).getD true) = ps :=
      congrArg Prod.snd heq
    constructor
    · intro hnil
      rw [hnil] at hne
      simp at hne
    · intro p hp
      rw [← hps, hkeep, List.mem_filter] at hp
      simpa using hp.2
  refine ⟨?_, hmem_inv, ?_, rfl⟩
  · simp only [PolicyEngine.clear_expired]
    congr 1
    exact List.map_congr_left (fun kv _ => hcount kv.2)
  · simp only [PolicyEngine.clear_expired]
    apply List.sum_eq_zero
    intro x hx
    rw [List.mem_map] at hx
    obtain ⟨kv, hkv, hxeq⟩ := hx
    obtain ⟨_, hall⟩ := hmem_inv kv.1 kv.2 hkv
    have hfe : kv.2.filter (fun p =>
        (p.expires_at.map (fun exp => (now < exp : Bool))).getD true) = kv.2 := by
      rw [hkeep]
      exact List.filter_eq_self.mpr (fun p hp => by simp [hall p hp])
    rw [← hxeq, hfe, Nat.sub_self]

/-- Claim C5 amended witness: one expired and one live grant for
module `device` — the call removes exactly the expired one, keeps the
live one, and a second call removes zero. -/
theorem clear_expired_spec_witness :
    ((PolicyEngine.mk [("device",
        [⟨"device", ["device.control"], [], -2, some (-1)⟩,
         ⟨"device", ["device.query"], [], 0, some 10⟩])]
        ["device"]).clear_expired 0).2
      = ([("device",
          [⟨"device", ["device.control"], [], -2, some (-1)⟩,
           ⟨"device", ["device.query"], [], 0, some 10⟩])].map
            (fun kv : String × List Permission =>
              kv.2.countP (fun p => p.expiredBy (0 : Int)))).sum ∧
    ((((PolicyEngine.mk [("device",
        [⟨"device", ["device.control"], [], -2, some (-1)⟩,
         ⟨"device", ["device.query"], [], 0, some 10⟩])]
        ["device"]).clear_expired 0).1.clear_expired 0).2 = 0) ∧
    ([⟨"device", ["device.query"], [], 0, some 10⟩] ≠ ([] : List Permission) ∧
      ∀ p ∈ [(⟨"device", ["device.query"], [], 0, some 10⟩ : Permission)],
        p.expiredBy 0 = false) :=
  ⟨(clear_expired_spec (PolicyEngine.mk [("device",
      [⟨"device", ["device.control"], [], -2, some (-1)⟩,
       ⟨"device", ["device.query"], [], 0, some 10⟩])] ["device"]) 0).1,
   (clear_expired_spec (PolicyEngine.mk [("device",
      [⟨"device", ["device.control"], [], -2, some (-1)⟩,
       ⟨"device", ["device.query"], [], 0, some 10⟩])] ["device"]) 0).2.2.1,
   (clear_expired_spec (PolicyEngine.mk [("device",
      [⟨"device", ["device.control"], [], -2, some (-1)⟩,
       ⟨"device", ["device.query"], [], 0, some 10⟩])] ["device"]) 0).2.1
      "device" [⟨"device", ["device.query"], [], 0, some 10⟩] (by decide)⟩

/-- Claim C9: `evaluate_intent` applies its rules in order, first match
winning: sleeping activity plus a `device.`-prefixed intent type is
vetoed with the sleeping reason (whatever the confidence); otherwise
confidence below 0.5 is vetoed with a reason starting
`Low confidence:`; otherwise the intent is approved with the fixed
reason. -/
theorem evaluate_intent_rules (p : Planner) (i : Intent) (ctx : Context) :
    ((ctx.current_activity = some "sleeping" ∧
        starts_with i.intent_type "device." = true) →
      p.evaluate_intent i ctx = (false,
        "User appears to be sleeping, device control may not be appropriate")
      ∧ "User appears to be sleeping, device control may not be appropriate"
        = "User appears to be " ++ "sleeping"
            ++ ", device control may not be appropriate") ∧
    (¬ (ctx.current_activity = some "sleeping" ∧
        starts_with i.intent_type "device." = true) →
      i.confidence < mkRat 1 2 →
      p.evaluate_intent i ctx
        = (false, "Low confidence: " ++ toString i.confidence)
      ∧ ∃ rest, "Low confidence: " ++ toString i.confidence
          = "Low confidence:" ++ rest) ∧
    (¬ (ctx.current_activity = some "sleeping" ∧
        starts_with i.intent_type "device." = true) →
      ¬ i.confidence < mkRat 1 2 →
      p.evaluate_intent i ctx
        = (true, "Intent appears appropriate for current context")) := by
  have hcond : ((match ctx.current_activity with
      | some activity =>
        activity == "sleeping" && starts_with i.intent_type "device."
      | none => false) = true)
      ↔ (ctx.current_activity = some "sleeping" ∧
          starts_with i.intent_type "device." = true) := by
    cases ctx.current_activity with
    | none => simp
    | some a => simp [Bool.and_eq_true, beq_iff_eq]
  refine ⟨fun h => ⟨?_, rfl⟩, fun h hlow => ⟨?_, ⟨" " ++ toString i.confidence,
    rfl⟩⟩, fun h hok => ?_⟩
  · unfold Planner.evaluate_intent
    rw [if_pos (hcond.mpr h)]
  · unfold Planner.evaluate_intent
    rw [if_neg (fun hc => h (hcond.mp hc)), if_pos hlow]
  · unfold Planner.evaluate_intent
    rw [if_neg (fun hc => h (hcond.mp hc)), if_neg hok]

/-- Claim C9 witness: the three rules exercised concretely — sleeping
vetoes `device.control` even at confidence 0.9; a `weather.query` at
confidence 0.25 is vetoed for low confidence; the same at 0.9 is
approved. -/
theorem evaluate_intent_rules_witness :
    Planner.mk.evaluate_intent
        (Intent.mk "device.control" (mkRat 9 10) [] "r" true (some "device"))
        (Context.mk "u" none (some "sleeping") 0)
      = (false,
        "User appears to be sleeping, device control may not be appropriate") ∧
    Planner.mk.evaluate_intent
        (Intent.mk "weather.query" (mkRat 1 4) [] "r" false (some "weather"))
        (Context.mk "u" none (some "working") 0)
      = (false, "Low confidence: "
          ++ toString (Intent.mk "weather.query" (mkRat 1 4) [] "r" false
              (some "weather")).confidence) ∧
    Planner.mk.evaluate_intent
        (Intent.mk "weather.query" (mkRat 9 10) [] "r" false (some "weather"))
        (Context.mk "u" none (some "working") 0)
      = (true, "Intent appears appropriate for current context") :=
  ⟨((evaluate_intent_rules Planner.mk
      (Intent.mk "device.control" (mkRat 9 10) [] "r" true (some "device"))
      (Context.mk "u" none (some "sleeping") 0)).1 ⟨rfl, by decide⟩).1,
   ((evaluate_intent_rules Planner.mk
      (Intent.mk "weather.query" (mkRat 1 4) [] "r" false (some "weather"))
      (Context.mk "u" none (some "working") 0)).2.1
      (fun h => by simpa using h.1) (by decide)).1,
   (evaluate_intent_rules Planner.mk
      (Intent.mk "weather.query" (mkRat 9 10) [] "r" false (some "weather"))
      (Context.mk "u" none (some "working") 0)).2.2
      (fun h => by simpa using h.1) (by decide)⟩

/-- Claim C10: `is_action_permitted` never reads the allow-list — any
two engines sharing a grant table agree on it — and consequently a
module outside a non-empty allow-list that holds an unexpired matching
grant has `is_action_permitted` true while `check_intent` rejects every
permission-requiring intent targeting it. -/
theorem is_action_permitted_allow_list_independent :
    (∀ (perms : List (String × List Permission)) (mods₁ mods₂ : List String)
        (m a : String) (now : Int),
      (PolicyEngine.mk perms mods₁).is_action_permitted m a now
        = (PolicyEngine.mk perms mods₂).is_action_permitted m a now) ∧
    (∀ (e : PolicyEngine) (m : String) (now : Int) (i : Intent),
      e.allowed_modules ≠ [] → e.allowed_modules.contains m = false →
      i.requires_permission = true → i.target_module = some m →
      e.check_intent now i
        = .error (.PolicyViolation
            ("Module " ++ m ++ " is not in allowed modules list"))) ∧
    (∀ (e : PolicyEngine) (m a : String) (now : Int)
        (perms : List Permission) (perm : Permission),
      e.getPerms m = some perms → perm ∈ perms →
      (∀ x, perm.expires_at = some x → ¬ x < now) →
      perm.actions.any (fun s => s == a || starts_with a (s ++ ".")) = true →
      e.is_action_permitted m a now = true) := by
  refine ⟨fun perms mods₁ mods₂ m a now => rfl,
    fun e m now i hne hcont hreq hm => ?_, ?_⟩
  · have h1 : e.allowed_modules.isEmpty = false := by
      cases hmods : e.allowed_modules with
      | nil => exact absurd hmods hne
      | cons x xs => rfl
    simp only [PolicyEngine.check_intent, hreq, hm, Bool.not_true,
      Bool.false_eq_true, if_false]
    rw [if_pos (by rw [h1, hcont]; rfl)]
  · intro e m a now perms perm hg hmem hunexp hact
    unfold PolicyEngine.is_action_permitted
    rw [hg]
    refine List.any_eq_true.mpr ⟨perm, hmem, ?_⟩
    unfold Permission.grants
    rw [Bool.and_eq_true]
    refine ⟨?_, hact⟩
    cases hx : perm.expires_at with
    | none => rfl
    | some x => simp [hunexp x hx]

/-- Claim C10 witness: grant table with one unexpired `device.control`
grant for module `device`; allow-lists `["other"]` versus `[]` agree on
`is_action_permitted` (true), while `check_intent` under `["other"]`
rejects the matching permission-requiring intent. -/
theorem is_action_permitted_allow_list_independent_witness :
    ((PolicyEngine.mk
        [("device", [⟨"device", ["device.control"], [], 0, none⟩])]
        ["other"]).is_action_permitted "device" "device.control" 0
      = (PolicyEngine.mk
        [("device", [⟨"device", ["device.control"], [], 0, none⟩])]
        []).is_action_permitted "device" "device.control" 0) ∧
    ((PolicyEngine.mk
        [("device", [⟨"device", ["device.control"], [], 0, none⟩])]
        ["other"]).check_intent 0
        (Intent.mk "device.control" 1 [] "r" true (some "device"))
      = .error (.PolicyViolation
          ("Module " ++ "device" ++ " is not in allowed modules list"))) ∧
    ((PolicyEngine.mk
        [("device", [⟨"device", ["device.control"], [], 0, none⟩])]
        ["other"]).is_action_permitted "device" "device.control" 0 = true) :=
  ⟨is_action_permitted_allow_list_independent.1
      [("device", [⟨"device", ["device.control"], [], 0, none⟩])]
      ["other"] [] "device" "device.control" 0,
   is_action_permitted_allow_list_independent.2.1
      (PolicyEngine.mk
        [("device", [⟨"device", ["device.control"], [], 0, none⟩])]
        ["other"]) "device" 0
      (Intent.mk "device.control" 1 [] "r" true (some "device"))
      (by simp) rfl rfl rfl,
   is_action_permitted_allow_list_independent.2.2
      (PolicyEngine.mk
        [("device", [⟨"device", ["device.control"], [], 0, none⟩])]
        ["other"]) "device" "device.control" 0
      [⟨"device", ["device.control"], [], 0, none⟩]
      ⟨"device", ["device.control"], [], 0, none⟩
      rfl (List.mem_singleton.mpr rfl)
      (fun x hx => Option.noConfusion hx) (by decide)⟩
